import Mathlib

/-!
Shallow embedding of the Sponge-ify-Me client (`src/App.tsx`).

The app is a single React component holding six pieces of state
(`originalImage`, `editedImage`, `prompt`, `isLoading`, `error`,
`isCameraOpen`) and four event handlers (`handleFileChange`,
`handleTakePhoto`, `handleGenerateClick`, and the camera `useEffect`
lifecycle).  Each handler is embedded as a pure function from the prior
`UIState` (plus the event's environment: the selected file, the settled
remote-call outcome, the capture surfaces) to the next `UIState`.
The camera `useEffect` / `getUserMedia` lifecycle is embedded separately
as a small labelled transition system that tracks stream acquisition
and release.
-/

/-- Mirrors the `OriginalImage` interface of `App.tsx` (fields
`base64`, `mimeType`, `name`). -/
structure OriginalImage where
  base64 : String
  mimeType : String
  name : String
deriving DecidableEq, Repr

/-- The six `useState` cells of the `App` component, as one record. -/
structure UIState where
  originalImage : Option OriginalImage
  editedImage : Option String
  prompt : String
  isLoading : Bool
  error : Option String
  isCameraOpen : Bool
deriving DecidableEq, Repr

/-- The initial prompt text from `useState<string>(...)` in `App.tsx`. -/
def defaultPrompt : String :=
  "Convert the face in the image into a SpongeBob-style face; however, the face should stay human. The face should look realistic and have subtle changes, like a slightly yellow face with a few holes, goofy teeth, bigger eyes, and a smile, while also keeping the background."

/-- The component's initial state: all image and error cells empty,
not loading, camera closed. -/
def initialState : UIState :=
  { originalImage := none, editedImage := none, prompt := defaultPrompt,
    isLoading := false, error := none, isCameraOpen := false }

/-! ### JavaScript string `split(',')`, embedded at the character level

`App.tsx` strips the data-URL scheme with `base64.split(',')[1]`.
JavaScript `split(',')` cuts the string at every comma; index `[1]` is
the segment between the first and second comma (or `undefined` when the
string holds no comma). -/

/-- Whether the first list is an initial segment of the second,
character by character. -/
def startsWithChars : List Char → List Char → Bool
  | [], _ => true
  | _, [] => false
  | a :: as, b :: bs => a == b && startsWithChars as bs

/-- Character-level embedding of JavaScript `s.startsWith(p)` (also the
behaviour of `String.startsWith` in the TypeScript source): does `s`
begin with `p`? -/
def jsStartsWith (s p : String) : Bool :=
  startsWithChars p.data s.data

/-- Character-level embedding of JavaScript `s.split(',')`: cut the
character list at every comma. -/
def splitCommaList : List Char → List (List Char)
  | [] => [[]]
  | c :: cs =>
    match splitCommaList cs with
    | [] => [[]]
    | seg :: segs => if c = ',' then [] :: seg :: segs else (c :: seg) :: segs

/-- JavaScript `s.split(',')` on a Lean `String`. -/
def jsSplitComma (s : String) : List String :=
  (splitCommaList s.data).map String.mk

/-- JavaScript `s.split(',')[1]` as used in `App.tsx`.  When the string
has no comma, index 1 is `undefined` in JavaScript; that value is never
produced for a genuine data URL, and is embedded here by the sentinel
string a template literal would render it as. -/
def stripDataUrlBody (s : String) : String :=
  ((jsSplitComma s).get? 1).getD "undefined"

/-- Everything after the first comma of a character list (used only in
specification statements, to phrase what the stripped body is). -/
def afterFirstCommaList : List Char → List Char
  | [] => []
  | c :: cs => if c = ',' then cs else afterFirstCommaList cs

/-- Everything after the first comma of a string. -/
def afterFirstComma (s : String) : String :=
  String.mk (afterFirstCommaList s.data)

/-! ### File selection (`handleFileChange`) -/

/-- A file delivered by the change event: its `name`, its declared
content `type`, and the outcome of reading it.
The read outcome embeds `fileToBase64` from `utils/fileUtils`.
Modelled from the spec: `utils/fileUtils.fileToBase64` is not under
`src/`; the spec says the Encoder produces a data URL whose body,
stripped of its scheme prefix, is the base64 payload — so the read
either resolves with the file's data-URL string (`Except.ok`) or
rejects (`Except.error`, the `IOError` case). -/
structure SelectedFile where
  name : String
  type : String
  readResult : Except Unit String
deriving Repr

/-- Error text of `App.tsx` line 52. -/
def validationErrorMsg : String := "Please upload a valid image file (PNG, JPG, etc.)."

/-- Error text of `App.tsx` line 65. -/
def readErrorMsg : String := "Failed to read the image file."

/-- Embedding of `handleFileChange` (`App.tsx` lines 48-69).  The event
carries an optional file (`event.target.files?.[0]`); with no file the
handler returns before touching any state. -/
def handleFileChange (s : UIState) (ev : Option SelectedFile) : UIState :=
  match ev with
  | none => s
  | some file =>
    if ¬ jsStartsWith file.type "image/" then
      { s with error := some validationErrorMsg }
    else
      let s1 : UIState := { s with error := none, editedImage := none }
      match file.readResult with
      | Except.error _ =>
        { s1 with error := some readErrorMsg, originalImage := none }
      | Except.ok dataUrl =>
        { s1 with originalImage := some ⟨stripDataUrlBody dataUrl, file.type, file.name⟩ }

/-! ### Photo capture (`handleTakePhoto`) -/

/-- Environment of a snap-photo click: whether the `videoRef` and
`canvasRef` elements and the canvas 2d `context` are available, the
data URL `canvas.toDataURL` serialises the frame to, and the value of
`Date.now()` at the click. -/
structure CaptureEnv where
  videoPresent : Bool
  canvasPresent : Bool
  contextPresent : Bool
  captureDataUrl : String
  now : Nat
deriving DecidableEq, Repr

/-- Embedding of `handleTakePhoto` (`App.tsx` lines 71-93).  The body is
guarded by `if (video && canvas)` and then `if (context)`; when either
guard fails the handler changes nothing. -/
def handleTakePhoto (s : UIState) (env : CaptureEnv) : UIState :=
  if env.videoPresent && env.canvasPresent then
    if env.contextPresent then
      { s with
        originalImage := some ⟨stripDataUrlBody env.captureDataUrl, "image/jpeg", "webcam-photo-" ++ toString env.now ++ ".jpg"⟩,
        editedImage := none,
        error := none,
        isCameraOpen := false }
    else s
  else s

/-! ### Submit edit (`handleGenerateClick`) -/

/-- Outcome of the awaited `editImage` remote call: `Except.error msg`
when the call throws (with the thrown message), `Except.ok r` when it
resolves with `r` (`none` standing for a null or undefined payload). -/
abbrev RemoteOutcome := Except String (Option String)

/-- Error text of `App.tsx` line 97 (guard failure). -/
def guardErrorMsg : String := "Please upload an image and provide a prompt."

/-- Message of the error thrown at `App.tsx` line 108 when the resolved
payload is falsy. -/
def noImageMsg : String := "The model did not return an image. Please try a different prompt."

/-- JavaScript truthiness of the resolved payload, as tested by
`if (generatedImageBase64)`: null/undefined and the empty string are
falsy. -/
def jsTruthyPayload : Option String → Bool
  | none => false
  | some b => b ≠ ""

/-- The state right after the guard passes and before the remote call
settles: `setIsLoading(true); setError(null); setEditedImage(null)`
(`App.tsx` lines 100-102). -/
def generatePending (s : UIState) : UIState :=
  { s with isLoading := true, error := none, editedImage := none }

/-- The `try/catch/finally` of `App.tsx` lines 103-114, applied once the
remote call settles with `outcome`: on a truthy payload set
`editedImage`; on a falsy payload throw (and hence catch) the
no-image error; on a thrown failure set the formatted error; in every
case finally set `isLoading` to `false`. -/
def generateSettle (s : UIState) (outcome : RemoteOutcome) : UIState :=
  let s2 : UIState :=
    match outcome with
    | Except.ok r =>
      if jsTruthyPayload r then
        { s with editedImage := some ("data:image/png;base64," ++ r.getD "") }
      else
        { s with error := some ("An error occurred: " ++ noImageMsg) }
    | Except.error msg =>
      { s with error := some ("An error occurred: " ++ msg) }
  { s2 with isLoading := false }

/-- Embedding of `handleGenerateClick` (`App.tsx` lines 95-115) from the
prior state to the state after the handler's async body has run to
completion, with the remote call settling as `outcome`. -/
def handleGenerateClick (s : UIState) (outcome : RemoteOutcome) : UIState :=
  if s.originalImage.isNone || s.prompt == "" then
    { s with error := some guardErrorMsg }
  else
    generateSettle (generatePending s) outcome

/-! ### Remaining UI transitions (camera open/cancel, prompt edits,
camera-access failure), needed to state invariant preservation. -/

/-- The Camera button: `setIsCameraOpen(true)` (`App.tsx` line 189). -/
def openCameraAction (s : UIState) : UIState := { s with isCameraOpen := true }

/-- The Cancel button: `setIsCameraOpen(false)` (`App.tsx` line 268). -/
def cancelCameraAction (s : UIState) : UIState := { s with isCameraOpen := false }

/-- The prompt textarea: `setPrompt(e.target.value)` (`App.tsx` line 242). -/
def setPromptAction (s : UIState) (p : String) : UIState := { s with prompt := p }

/-- The `getUserMedia` catch branch (`App.tsx` lines 33-37): set the
camera-access error and close the camera. -/
def cameraFailAction (s : UIState) : UIState :=
  { s with
    error := some "Could not access the camera. Please check permissions and try again.",
    isCameraOpen := false }

/-- Every user- or callback-triggered transition of the UI state. -/
inductive AppAction where
  | selectFile (ev : Option SelectedFile)
  | takePhoto (env : CaptureEnv)
  | generate (outcome : RemoteOutcome)
  | openCam
  | cancelCam
  | camFail
  | editPrompt (p : String)
deriving Repr

/-- One step of the UI state machine: dispatch an `AppAction` to its
handler. -/
def step (s : UIState) : AppAction → UIState
  | AppAction.selectFile ev => handleFileChange s ev
  | AppAction.takePhoto env => handleTakePhoto s env
  | AppAction.generate outcome => handleGenerateClick s outcome
  | AppAction.openCam => openCameraAction s
  | AppAction.cancelCam => cancelCameraAction s
  | AppAction.camFail => cameraFailAction s
  | AppAction.editPrompt p => setPromptAction s p

/-- The shape every non-absent `editedImage` has: the fixed PNG data-URL
scheme prefix followed by some payload. -/
def editedInv (s : UIState) : Prop :=
  ∀ u, s.editedImage = some u → ∃ b, u = "data:image/png;base64," ++ b

/-! ### Camera stream lifecycle (`useEffect` of `App.tsx` lines 24-46)

The effect depends on `[isCameraOpen]`.  React runs the previous
effect's cleanup and then the effect body whenever the dependency
changes, and runs the cleanup once more on unmount.  The effect body
starts `getUserMedia` when the camera is open; the promise settles
later, and its `then` callback stores the stream in `streamRef` only
when `videoRef.current` is non-null — the `<video>` element exists
exactly while the component is mounted with `isCameraOpen` true.  The
cleanup stops and clears the stream held in `streamRef`, if any.
Streams are identified by the order of their `getUserMedia` requests;
`acquired` records every stream the browser has handed over and
`stops` every `track.stop()` call, with multiplicity. -/

/-- State of the camera lifecycle model. -/
structure CamState where
  mounted : Bool
  isCameraOpen : Bool
  streamRef : Option Nat
  pending : List Nat
  nextId : Nat
  acquired : List Nat
  stops : List Nat
deriving DecidableEq, Repr

/-- External events driving the camera lifecycle: the user actions,
component teardown, and the settling of a pending `getUserMedia`
request (resolution hands over a stream; rejection is the
permission-denied path). -/
inductive CamEvent where
  | openCam
  | cancel
  | capture
  | unmount
  | resolve
  | reject
deriving DecidableEq, Repr

/-- The effect cleanup (`App.tsx` lines 40-45): if `streamRef` holds a
stream, stop its tracks and null the ref. -/
def camCleanup (s : CamState) : CamState :=
  match s.streamRef with
  | some id => { s with stops := s.stops ++ [id], streamRef := none }
  | none => s

/-- The effect body (`App.tsx` lines 25-38): when the camera is open,
issue a `getUserMedia` request (it settles later). -/
def camEffect (s : CamState) : CamState :=
  if s.isCameraOpen then
    { s with pending := s.pending ++ [s.nextId], nextId := s.nextId + 1 }
  else s

/-- `setIsCameraOpen v`: React re-runs the `[isCameraOpen]` effect
(previous cleanup, then body) only when the value actually changes. -/
def setCameraOpen (s : CamState) (v : Bool) : CamState :=
  if s.isCameraOpen = v then s
  else camEffect (camCleanup { s with isCameraOpen := v })

/-- The oldest pending `getUserMedia` request resolves: the browser
hands over a stream (it is now acquired).  The `then` callback stores
it in `streamRef` only if the `<video>` element is present; otherwise
the handed-over stream is simply dropped. -/
def camResolve (s : CamState) : CamState :=
  match s.pending with
  | [] => s
  | id :: rest =>
    let s1 : CamState := { s with pending := rest, acquired := s.acquired ++ [id] }
    if s1.mounted && s1.isCameraOpen then { s1 with streamRef := some id } else s1

/-- The oldest pending `getUserMedia` request rejects: the `catch`
branch sets an error and calls `setIsCameraOpen(false)`. -/
def camReject (s : CamState) : CamState :=
  match s.pending with
  | [] => s
  | _ :: rest => setCameraOpen { s with pending := rest } false

/-- Component teardown: React runs the pending cleanup, then the
component is gone. -/
def camUnmount (s : CamState) : CamState :=
  { camCleanup s with mounted := false }

/-- One step of the camera lifecycle. -/
def camStep (s : CamState) : CamEvent → CamState
  | CamEvent.openCam => setCameraOpen s true
  | CamEvent.cancel => setCameraOpen s false
  | CamEvent.capture => setCameraOpen s false
  | CamEvent.unmount => camUnmount s
  | CamEvent.resolve => camResolve s
  | CamEvent.reject => camReject s

/-- Run a sequence of camera events from a state. -/
def camRun (s : CamState) (es : List CamEvent) : CamState :=
  es.foldl camStep s

/-- The mounted component before the camera is ever opened. -/
def camInit : CamState :=
  { mounted := true, isCameraOpen := false, streamRef := none,
    pending := [], nextId := 0, acquired := [], stops := [] }

/-- The event sequence exhibiting the stream leak: open the camera,
cancel before `getUserMedia` settles, then the request resolves, then
the component unmounts. -/
def leakTrace : List CamEvent :=
  [CamEvent.openCam, CamEvent.cancel, CamEvent.resolve, CamEvent.unmount]

/-! ### Concrete fixtures used by counterexamples and witnesses -/

/-- A state holding both an original image and an edited result. -/
def fullState : UIState :=
  { originalImage := some ⟨"QkJC", "image/jpeg", "b.jpg"⟩,
    editedImage := some "data:image/png;base64,RUVF",
    prompt := "add a hat",
    isLoading := false,
    error := none,
    isCameraOpen := false }

/-- An image-typed file whose read fails. -/
def unreadableFile : SelectedFile :=
  { name := "a.png", type := "image/png", readResult := Except.error () }

/-- A plain-text (non-image) file. -/
def textFile : SelectedFile :=
  { name := "notes.txt", type := "text/plain", readResult := Except.ok "data:text/plain;base64,QQ==" }

/-- An image file that reads successfully to a PNG data URL. -/
def goodFile : SelectedFile :=
  { name := "a.png", type := "image/png", readResult := Except.ok "data:image/png;base64,QUJD" }

/-- A capture click made while the canvas element is unavailable. -/
def noCanvasEnv : CaptureEnv :=
  { videoPresent := true, canvasPresent := false, contextPresent := true,
    captureDataUrl := "data:image/jpeg;base64,Lw==", now := 1700000000000 }

/-- A capture click with every surface available. -/
def goodCaptureEnv : CaptureEnv :=
  { videoPresent := true, canvasPresent := true, contextPresent := true,
    captureDataUrl := "data:image/jpeg;base64,Lw==", now := 1700000000000 }

/-- `fullState` with the camera overlay shown. -/
def cameraOpenState : UIState :=
  { fullState with isCameraOpen := true }

/-! ## Helper lemmas about the character-level split -/

/-- `splitCommaList` never returns the empty list of segments. -/
theorem splitCommaList_ne_nil (l : List Char) : splitCommaList l ≠ [] := by
  cases l with
  | nil => simp [splitCommaList]
  | cons c cs =>
    unfold splitCommaList
    split
    · simp
    · split <;> simp

/-- Splitting a comma-free list yields that list as the single
segment. -/
theorem splitCommaList_no_comma (l : List Char) (h : ',' ∉ l) :
    splitCommaList l = [l] := by
  induction l with
  | nil => rfl
  | cons c cs ih =>
    have h1 : c ≠ ',' := by
      intro hc
      exact h (by simp [hc])
    have h2 : ',' ∉ cs := by
      intro hm
      exact h (List.mem_cons_of_mem _ hm)
    simp [splitCommaList, ih h2, h1]

/-- Splitting past a comma-free head: the head becomes the first
segment and splitting continues after the comma. -/
theorem splitCommaList_append (pre rest : List Char) (h : ',' ∉ pre) :
    splitCommaList (pre ++ ',' :: rest) = pre :: splitCommaList rest := by
  induction pre with
  | nil =>
    rcases hr : splitCommaList rest with _ | ⟨seg, segs⟩
    · exact absurd hr (splitCommaList_ne_nil rest)
    · simp only [List.nil_append, splitCommaList, hr]
      simp
  | cons c cs ih =>
    have h1 : c ≠ ',' := by
      intro hc
      exact h (by simp [hc])
    have h2 : ',' ∉ cs := by
      intro hm
      exact h (List.mem_cons_of_mem _ hm)
    rw [List.cons_append]
    simp only [splitCommaList]
    rw [ih h2]
    simp [h1]

/-- Dropping through the first comma past a comma-free head leaves
exactly the tail after that comma. -/
theorem afterFirstCommaList_append (pre rest : List Char) (h : ',' ∉ pre) :
    afterFirstCommaList (pre ++ ',' :: rest) = rest := by
  induction pre with
  | nil => simp [afterFirstCommaList]
  | cons c cs ih =>
    have h1 : c ≠ ',' := by
      intro hc
      exact h (by simp [hc])
    have h2 : ',' ∉ cs := by
      intro hm
      exact h (List.mem_cons_of_mem _ hm)
    simp [afterFirstCommaList, h1, ih h2]

/-- The character data of a data URL built from a comma-free scheme
part, a comma, and a body. -/
theorem dataUrl_data (scheme body : String) :
    (scheme ++ "," ++ body).data = scheme.data ++ ',' :: body.data := by
  simp [String.data_append]

/-- `split(',')[1]` of such a data URL is exactly its body. -/
theorem stripDataUrlBody_eq (scheme body : String)
    (hs : ',' ∉ scheme.data) (hb : ',' ∉ body.data) :
    stripDataUrlBody (scheme ++ "," ++ body) = body := by
  unfold stripDataUrlBody jsSplitComma
  rw [dataUrl_data, splitCommaList_append _ _ hs, splitCommaList_no_comma _ hb]
  rfl

/-- Everything after the first comma of such a data URL is its body. -/
theorem afterFirstComma_eq (scheme body : String) (hs : ',' ∉ scheme.data) :
    afterFirstComma (scheme ++ "," ++ body) = body := by
  unfold afterFirstComma
  rw [dataUrl_data, afterFirstCommaList_append _ _ hs]

/-! ## Claim theorems -/

/-- Claim C9: a file-selection change event carrying no file leaves the
entire UI state — originalImage, editedImage, prompt, isLoading, error
and isCameraOpen — unchanged. -/
theorem c9_noFile_noOp (s : UIState) : handleFileChange s none = s := rfl

/-- Claim C8, evaluated at the failing event sequence: open the camera,
cancel before `getUserMedia` settles, let the request resolve, then
unmount.  The resolved stream (id 0) is acquired but the run records no
stop at all — the code leaks the device stream, contrary to the claim
that every acquired stream is stopped exactly once. -/
theorem c8_streamLeak :
    (camRun camInit leakTrace).acquired = [0] ∧
    (camRun camInit leakTrace).stops = [] ∧
    (camRun camInit leakTrace).mounted = false := by
  decide

/-- Claim C1 fails as stated: on the file-read failure the code runs
`setOriginalImage(null)` and has already run `setEditedImage(null)`, so
the previously stored original image is not left unchanged.  Concretely,
from a state holding an original image and an edited result, selecting
an image-typed file whose read fails clears both. -/
theorem c1_counterexample :
    fullState.originalImage = some ⟨"QkJC", "image/jpeg", "b.jpg"⟩ ∧
    (handleFileChange fullState (some unreadableFile)).originalImage = none ∧
    (handleFileChange fullState (some unreadableFile)).originalImage ≠ fullState.originalImage ∧
    (handleFileChange fullState (some unreadableFile)).editedImage ≠ fullState.editedImage := by
  decide

/-- Claim C1 as amended: on the non-image validation failure the only
state change is that the error is replaced; on the file-read failure
the error is replaced and, in addition, originalImage and editedImage
are both cleared. -/
theorem c1_failurePaths (s : UIState) (file : SelectedFile) :
    (jsStartsWith file.type "image/" = false →
      handleFileChange s (some file) = { s with error := some validationErrorMsg }) ∧
    (∀ e, jsStartsWith file.type "image/" = true → file.readResult = Except.error e →
      handleFileChange s (some file) =
        { s with error := some readErrorMsg, originalImage := none, editedImage := none }) := by
  constructor
  · intro h
    simp [handleFileChange, h]
  · intro e h hr
    simp [handleFileChange, h, hr]

/-- Claim C1 witness: the amended statement applied to concrete failing
selections. -/
theorem c1_failurePaths_witness :
    handleFileChange fullState (some textFile) = { fullState with error := some validationErrorMsg } ∧
    handleFileChange fullState (some unreadableFile) =
      { fullState with error := some readErrorMsg, originalImage := none, editedImage := none } :=
  ⟨(c1_failurePaths fullState textFile).1 (by decide),
   (c1_failurePaths fullState unreadableFile).2 () (by decide) rfl⟩

/-- Claim C2: when originalImage is absent or the prompt is empty,
submitting an edit only sets the guard error — every other field is
unchanged — and the result does not depend on the remote call's
outcome (the call is never consulted). -/
theorem c2_guardNoOp (s : UIState) (o : RemoteOutcome)
    (h : s.originalImage = none ∨ s.prompt = "") :
    handleGenerateClick s o = { s with error := some guardErrorMsg } ∧
    ∀ o2 : RemoteOutcome, handleGenerateClick s o = handleGenerateClick s o2 := by
  have hc : (s.originalImage.isNone || s.prompt == "") = true := by
    rcases h with h | h <;> simp [h]
  constructor
  · simp [handleGenerateClick, hc]
  · intro o2
    simp [handleGenerateClick, hc]

/-- Claim C2 witness: submitting from the initial state (no original
image) only sets the guard error. -/
theorem c2_guardNoOp_witness :
    handleGenerateClick initialState (Except.ok (some "QQ==")) =
      { initialState with error := some guardErrorMsg } :=
  (c2_guardNoOp initialState (Except.ok (some "QQ==")) (Or.inl rfl)).1

/-- Claim C3: when the guard passes, the state handed to the remote
call has isLoading set to true (together with the error and edited
image cleared), and after the call settles — success, thrown failure,
or no-payload — isLoading is false again. -/
theorem c3_loadingLifecycle (s : UIState) (o : RemoteOutcome)
    (h1 : s.originalImage ≠ none) (h2 : s.prompt ≠ "") :
    (generatePending s).isLoading = true ∧
    handleGenerateClick s o = generateSettle (generatePending s) o ∧
    (handleGenerateClick s o).isLoading = false := by
  have hc : (s.originalImage.isNone || s.prompt == "") = false := by
    rcases ho : s.originalImage with _ | img
    · exact absurd ho h1
    · simp [ho]
      exact h2
  have hgen : handleGenerateClick s o = generateSettle (generatePending s) o := by
    simp [handleGenerateClick, hc]
  refine ⟨rfl, hgen, ?_⟩
  rw [hgen]
  rfl

/-- Claim C3 witness: the loading lifecycle at a concrete state and a
concrete thrown failure. -/
theorem c3_loadingLifecycle_witness :
    (generatePending fullState).isLoading = true ∧
    (handleGenerateClick fullState (Except.error "boom")).isLoading = false := by
  have h := c3_loadingLifecycle fullState (Except.error "boom") (by decide) (by decide)
  exact ⟨h.1, h.2.2⟩

/-- Claim C4: selecting an image-typed file whose read succeeds with a
data URL (comma-free scheme part, comma, comma-free base64 body) stores
an original image whose mimeType is the file's declared type, whose
name is the file's name, and whose base64 field is the portion of the
data URL after its first comma. -/
theorem c4_validSelection (s : UIState) (file : SelectedFile) (scheme body : String)
    (hty : jsStartsWith file.type "image/" = true)
    (hread : file.readResult = Except.ok (scheme ++ "," ++ body))
    (hs : ',' ∉ scheme.data) (hb : ',' ∉ body.data) :
    (handleFileChange s (some file)).originalImage =
      some ⟨afterFirstComma (scheme ++ "," ++ body), file.type, file.name⟩ ∧
    afterFirstComma (scheme ++ "," ++ body) = body := by
  have h1 : stripDataUrlBody (scheme ++ "," ++ body) = body := stripDataUrlBody_eq scheme body hs hb
  have h2 : afterFirstComma (scheme ++ "," ++ body) = body := afterFirstComma_eq scheme body hs
  refine ⟨?_, h2⟩
  simp [handleFileChange, hty, hread, h1, h2]

/-- Claim C4 witness: a concrete PNG selection stores the stripped
body, the declared type, and the filename. -/
theorem c4_validSelection_witness :
    (handleFileChange initialState (some goodFile)).originalImage =
      some ⟨afterFirstComma ("data:image/png;base64" ++ "," ++ "QUJD"), goodFile.type, goodFile.name⟩ ∧
    afterFirstComma ("data:image/png;base64" ++ "," ++ "QUJD") = "QUJD" :=
  c4_validSelection initialState goodFile "data:image/png;base64" "QUJD" (by decide) rfl
    (by decide) (by decide)

/-- Claim C5: selecting a valid image file (image-typed, read succeeds)
clears any previously displayed edited result and any previous error,
whatever the prior state was. -/
theorem c5_validSelectionClears (s : UIState) (file : SelectedFile) (u : String)
    (hty : jsStartsWith file.type "image/" = true)
    (hread : file.readResult = Except.ok u) :
    (handleFileChange s (some file)).editedImage = none ∧
    (handleFileChange s (some file)).error = none := by
  simp [handleFileChange, hty, hread]

/-- Claim C5 witness: a concrete valid selection from a state showing
an edited result and holding no error. -/
theorem c5_validSelectionClears_witness :
    (handleFileChange fullState (some goodFile)).editedImage = none ∧
    (handleFileChange fullState (some goodFile)).error = none :=
  c5_validSelectionClears fullState goodFile "data:image/png;base64,QUJD" (by decide) rfl

/-- Claim C6 fails as stated: `handleTakePhoto` is a no-op when the
canvas element is unavailable, so with the camera open it does not
transition isCameraOpen to false there. -/
theorem c6_counterexample :
    cameraOpenState.isCameraOpen = true ∧
    handleTakePhoto cameraOpenState noCanvasEnv = cameraOpenState ∧
    (handleTakePhoto cameraOpenState noCanvasEnv).isCameraOpen = true := by
  decide

/-- Claim C6 as amended: whenever the video and canvas elements and the
2d drawing context are available (which holds whenever the camera
overlay is rendered), snapping a photo stores a JPEG-encoded capture
named from the capture timestamp, clears editedImage and error, and
sets isCameraOpen to false. -/
theorem c6_takePhoto (s : UIState) (env : CaptureEnv)
    (hv : env.videoPresent = true) (hc : env.canvasPresent = true)
    (hx : env.contextPresent = true) :
    handleTakePhoto s env =
      { s with
        originalImage := some ⟨stripDataUrlBody env.captureDataUrl, "image/jpeg", "webcam-photo-" ++ toString env.now ++ ".jpg"⟩,
        editedImage := none,
        error := none,
        isCameraOpen := false } := by
  simp [handleTakePhoto, hv, hc, hx]

/-- Claim C6 witness: a concrete capture with all surfaces available. -/
theorem c6_takePhoto_witness :
    handleTakePhoto cameraOpenState goodCaptureEnv =
      { cameraOpenState with
        originalImage := some ⟨stripDataUrlBody goodCaptureEnv.captureDataUrl, "image/jpeg", "webcam-photo-" ++ toString goodCaptureEnv.now ++ ".jpg"⟩,
        editedImage := none,
        error := none,
        isCameraOpen := false } :=
  c6_takePhoto cameraOpenState goodCaptureEnv rfl rfl rfl

/-- Claim C7: past the guard, a remote call that settles with no
payload sets exactly the message suggesting prompt revision, a remote
call that throws with message `reason` sets "An error occurred: "
followed by `reason`, and the two messages differ whenever `reason`
differs from the no-image text. -/
theorem c7_errorMessages (s : UIState) (reason : String)
    (h1 : s.originalImage ≠ none) (h2 : s.prompt ≠ "") :
    (handleGenerateClick s (Except.ok none)).error =
      some "An error occurred: The model did not return an image. Please try a different prompt." ∧
    (handleGenerateClick s (Except.error reason)).error =
      some ("An error occurred: " ++ reason) ∧
    (reason ≠ noImageMsg →
      (handleGenerateClick s (Except.ok none)).error ≠
        (handleGenerateClick s (Except.error reason)).error) := by
  have hc : (s.originalImage.isNone || s.prompt == "") = false := by
    rcases ho : s.originalImage with _ | img
    · exact absurd ho h1
    · simp [ho]
      exact h2
  have ha : (handleGenerateClick s (Except.ok none)).error =
      some ("An error occurred: " ++ noImageMsg) := by
    simp [handleGenerateClick, hc, generateSettle, jsTruthyPayload, generatePending]
  have hb : (handleGenerateClick s (Except.error reason)).error =
      some ("An error occurred: " ++ reason) := by
    simp [handleGenerateClick, hc, generateSettle, generatePending]
  refine ⟨ha, hb, ?_⟩
  intro hne heq
  rw [ha, hb] at heq
  have hstr : "An error occurred: " ++ noImageMsg = "An error occurred: " ++ reason :=
    Option.some.inj heq
  have hdata : ("An error occurred: " : String).data ++ noImageMsg.data =
      ("An error occurred: " : String).data ++ reason.data := by
    have := congrArg String.data hstr
    simpa [String.data_append] using this
  exact absurd (String.ext (List.append_cancel_left hdata)).symm hne

/-- Claim C7 witness: the two messages at a concrete state and a
concrete thrown reason, and their distinctness. -/
theorem c7_errorMessages_witness :
    (handleGenerateClick fullState (Except.ok none)).error =
      some "An error occurred: The model did not return an image. Please try a different prompt." ∧
    (handleGenerateClick fullState (Except.error "boom")).error =
      some ("An error occurred: " ++ "boom") ∧
    (handleGenerateClick fullState (Except.ok none)).error ≠
      (handleGenerateClick fullState (Except.error "boom")).error := by
  have h := c7_errorMessages fullState "boom" (by decide) (by decide)
  exact ⟨h.1, h.2.1, h.2.2 (by decide)⟩

/-- After any single step, the editedImage cell is cleared, untouched,
or set to the PNG data-URL scheme prefix followed by a payload. -/
theorem editedImage_step_cases (s : UIState) (a : AppAction) :
    (step s a).editedImage = none ∨
    (step s a).editedImage = s.editedImage ∨
    ∃ b, (step s a).editedImage = some ("data:image/png;base64," ++ b) := by
  cases a with
  | selectFile ev =>
    cases ev with
    | none => right; left; rfl
    | some file =>
      by_cases hty : jsStartsWith file.type "image/" = true
      · cases hr : file.readResult with
        | error e => left; simp [step, handleFileChange, hty, hr]
        | ok u => left; simp [step, handleFileChange, hty, hr]
      · have hty' : jsStartsWith file.type "image/" = false := by
          simpa using hty
        right; left
        simp [step, handleFileChange, hty']
  | takePhoto env =>
    simp only [step, handleTakePhoto]
    split
    · split
      · left; rfl
      · right; left; rfl
    · right; left; rfl
  | generate outcome =>
    simp only [step, handleGenerateClick]
    split
    · right; left; rfl
    · cases outcome with
      | error msg => left; rfl
      | ok r =>
        simp only [generateSettle]
        split
        · right; right; exact ⟨r.getD "", rfl⟩
        · left; rfl
  | openCam => right; left; rfl
  | cancelCam => right; left; rfl
  | camFail => right; left; rfl
  | editPrompt p => right; left; rfl

/-- Claim C10: the initial state satisfies the editedImage shape
invariant; every step of the UI state machine preserves it; and the
successful generate step stores exactly the fixed PNG data-URL prefix
followed by the payload the remote call returned, whatever the original
image's MIME type was. -/
theorem c10_editedImageShape :
    editedInv initialState ∧
    (∀ (s : UIState) (a : AppAction), editedInv s → editedInv (step s a)) ∧
    (∀ (s : UIState) (b : String),
      s.originalImage.isNone = false → (s.prompt == "") = false → b ≠ "" →
      (step s (AppAction.generate (Except.ok (some b)))).editedImage =
        some ("data:image/png;base64," ++ b)) := by
  refine ⟨?_, ?_, ?_⟩
  · intro u hu
    simp [initialState] at hu
  · intro s a h u hu
    rcases editedImage_step_cases s a with h0 | h0 | ⟨b, h0⟩
    · rw [h0] at hu
      cases hu
    · rw [h0] at hu
      exact h u hu
    · rw [h0] at hu
      exact ⟨b, (Option.some.inj hu).symm⟩
  · intro s b h1 h2 hb
    have hc : (s.originalImage.isNone || s.prompt == "") = false := by
      simp [h1, h2]
    simp [step, handleGenerateClick, hc, generateSettle, jsTruthyPayload, hb, generatePending]

/-- Claim C10 witness: the invariant's generate clause at a concrete
state and payload. -/
theorem c10_editedImageShape_witness :
    (step fullState (AppAction.generate (Except.ok (some "WFla")))).editedImage =
      some ("data:image/png;base64," ++ "WFla") :=
  c10_editedImageShape.2.2 fullState "WFla" (by decide) (by decide) (by decide)
